import Mathlib

/-!
Shallow embedding of `src/New folder/InstallPrompt.js`.

The component is a React function component.  Its observable state is:

* two durable localStorage keys, `appInstalled` and `installPromptDismissed`
  (present-or-absent; the code only ever writes the string value true and
  tests truthiness), modelled as two Booleans;
* the React state variables `showPrompt : Bool` and
  `deferredPrompt : event or null`, modelled per mounted instance;
* the mount-time snapshot of the two localStorage keys: the `useEffect`
  with an empty dependency array reads `installPromptDismissed` and
  `appInstalled` once at mount (lines 18-19) and the handlers close over
  those constants;
* pending `setTimeout` timers.  The code never stores a timer handle and
  the effect cleanup (lines 52-55) removes the two event listeners only,
  so timers survive component unmount.  A timer created by
  `setTimeout(() => setShowPrompt(true), 1000)` targets the instance that
  created it: if that instance is unmounted when the timer fires, the
  `setShowPrompt` call is a no-op.  The 7-day timer runs
  `localStorage.removeItem`, which acts on durable storage regardless of
  which instance is mounted.

Events model the single-threaded browser event loop: mount, unmount,
the `beforeinstallprompt` and `appinstalled` window events (handled only
while the listeners are registered, i.e. while mounted), the two click
handlers, clock advance, timer firing (allowed only at or after the due
time), and a page reload (which destroys all timers and component state
but keeps localStorage).
-/

namespace InstallPrompt

/-- The delay passed to setTimeout before showing the banner (line 33): 1000 ms. -/
def SHOW_DELAY_MS : Nat := 1000

/-- The delay passed to setTimeout before removing `installPromptDismissed`
(line 94): 7 * 24 * 60 * 60 * 1000 ms. -/
def DISMISS_COOLDOWN_MS : Nat := 7 * 24 * 60 * 60 * 1000

/-- The durable localStorage keys the component uses. -/
structure Storage where
  appInstalled : Bool
  installPromptDismissed : Bool
  deriving DecidableEq, Repr

/-- The two kinds of setTimeout callback the component creates. -/
inductive TimerKind
  | showBanner
  | clearDismiss
  deriving DecidableEq, Repr

/-- A pending setTimeout: its kind, absolute due time in ms, and the id of
the component instance whose closure it captured. -/
structure Timer where
  kind : TimerKind
  due : Nat
  owner : Nat
  deriving DecidableEq, Repr

/-- A mounted component instance: React state plus the mount-time snapshot
of the two localStorage keys (lines 18-19). -/
structure Component where
  id : Nat
  showPrompt : Bool
  deferredPrompt : Option Nat
  promptDismissed : Bool
  alreadyInstalled : Bool
  deriving DecidableEq, Repr

/-- The whole observable world: clock, durable storage, the mounted
instance if any, pending timers, a fresh-id counter, and a count of
fallback alert dialogs shown. -/
structure Sys where
  now : Nat
  storage : Storage
  comp : Option Component
  timers : List Timer
  nextId : Nat
  fallbackAlerts : Nat
  deriving DecidableEq, Repr

/-- Events of the single-threaded event loop. -/
inductive Event
  | mount (standalone : Bool)
  | unmount
  | beforeInstallPrompt (sig : Nat)
  | appInstalled
  | installClick (accepted : Bool)
  | dismissClick
  | tick (d : Nat)
  | timerFire (i : Nat)
  | reload
  deriving DecidableEq, Repr

/-- `handleBeforeInstallPrompt` (lines 22-35): stores the event in
`deferredPrompt` unconditionally, then, if the mount-time snapshot has
neither flag set, schedules `setShowPrompt(true)` after SHOW_DELAY_MS. -/
def handleBeforeInstallPrompt (s : Sys) (c : Component) (sig : Nat) : Sys :=
  let c2 := { c with deferredPrompt := some sig }
  let ts :=
    if !c.promptDismissed && !c.alreadyInstalled then
      s.timers ++ [⟨TimerKind.showBanner, s.now + SHOW_DELAY_MS, c.id⟩]
    else s.timers
  { s with comp := some c2, timers := ts }

/-- `handleAppInstalled` (lines 38-42): sets the durable `appInstalled`
key and `setShowPrompt(false)`.  It does not touch any pending timer. -/
def handleAppInstalled (s : Sys) (c : Component) : Sys :=
  { s with
    storage := { s.storage with appInstalled := true },
    comp := some { c with showPrompt := false } }

/-- `handleInstallClick` (lines 58-85): with no deferred prompt, shows the
fallback alert and returns; with one, invokes prompt(), awaits the
outcome, sets `appInstalled` when accepted, then clears `deferredPrompt`
and hides the banner in both cases. -/
def handleInstallClick (s : Sys) (c : Component) (accepted : Bool) : Sys :=
  match c.deferredPrompt with
  | none => { s with fallbackAlerts := s.fallbackAlerts + 1 }
  | some _ =>
    let st := if accepted then { s.storage with appInstalled := true } else s.storage
    { s with
      storage := st,
      comp := some { c with deferredPrompt := none, showPrompt := false } }

/-- `handleDismiss` (lines 87-95): hides the banner, sets the durable
`installPromptDismissed` key, and schedules its removal after
DISMISS_COOLDOWN_MS via setTimeout. -/
def handleDismiss (s : Sys) (c : Component) : Sys :=
  { s with
    comp := some { c with showPrompt := false },
    storage := { s.storage with installPromptDismissed := true },
    timers := s.timers ++ [⟨TimerKind.clearDismiss, s.now + DISMISS_COOLDOWN_MS, c.id⟩] }

/-- Mounting the component (lines 12-56): fresh React state, the snapshot
of the two keys is read first (lines 18-19), then the standalone
display-mode check (lines 48-50) may write `appInstalled`.  A second
mount while one instance is live is not modelled (single instance). -/
def mountComp (s : Sys) (standalone : Bool) : Sys :=
  match s.comp with
  | some _ => s
  | none =>
    let c : Component :=
      { id := s.nextId
        showPrompt := false
        deferredPrompt := none
        promptDismissed := s.storage.installPromptDismissed
        alreadyInstalled := s.storage.appInstalled }
    let st := if standalone then { s.storage with appInstalled := true } else s.storage
    { s with comp := some c, storage := st, nextId := s.nextId + 1 }

/-- Firing a pending timer: allowed once the clock has reached its due
time.  A showBanner callback runs `setShowPrompt(true)` on its owner
instance, a no-op when that instance is no longer mounted; a clearDismiss
callback removes the durable `installPromptDismissed` key. -/
def fireTimer (s : Sys) (i : Nat) : Sys :=
  match s.timers[i]? with
  | none => s
  | some t =>
    if s.now < t.due then s
    else
      let s2 := { s with timers := s.timers.eraseIdx i }
      match t.kind with
      | TimerKind.showBanner =>
        match s2.comp with
        | some c =>
          if c.id = t.owner then { s2 with comp := some { c with showPrompt := true } }
          else s2
        | none => s2
      | TimerKind.clearDismiss =>
        { s2 with storage := { s2.storage with installPromptDismissed := false } }

/-- One event-loop step.  The window event handlers act only while the
component is mounted (the listeners are added on mount and removed by the
effect cleanup); the cleanup does not clear any timer, so unmount leaves
`timers` untouched.  A page reload destroys timers and component state
but keeps durable storage. -/
def step (s : Sys) : Event → Sys
  | Event.mount standalone => mountComp s standalone
  | Event.unmount => { s with comp := none }
  | Event.beforeInstallPrompt sig =>
    match s.comp with
    | some c => handleBeforeInstallPrompt s c sig
    | none => s
  | Event.appInstalled =>
    match s.comp with
    | some c => handleAppInstalled s c
    | none => s
  | Event.installClick b =>
    match s.comp with
    | some c => handleInstallClick s c b
    | none => s
  | Event.dismissClick =>
    match s.comp with
    | some c => handleDismiss s c
    | none => s
  | Event.tick d => { s with now := s.now + d }
  | Event.timerFire i => fireTimer s i
  | Event.reload => { s with comp := none, timers := [] }

/-- First visit: empty storage, nothing mounted, clock at 0. -/
def init : Sys :=
  { now := 0
    storage := { appInstalled := false, installPromptDismissed := false }
    comp := none
    timers := []
    nextId := 0
    fallbackAlerts := 0 }

/-- Run a sequence of events. -/
def run (s : Sys) (evs : List Event) : Sys := evs.foldl step s

/-- The banner is on screen: the component is mounted and `showPrompt` is
true (line 97 returns null otherwise). -/
def visible (s : Sys) : Bool :=
  match s.comp with
  | some c => c.showPrompt
  | none => false

/-- Whether a beforeinstallprompt event arriving now would add a pending
timer, i.e. whether the component schedules the banner for this signal. -/
def schedulesShow (s : Sys) (sig : Nat) : Bool :=
  decide (s.timers.length < (step s (Event.beforeInstallPrompt sig)).timers.length)

/-- Trace: first visit, installability signal, then the platform reports a
completed installation before the show-delay timer fires; the timer then
fires. -/
def c1Trace : List Event :=
  [Event.mount false, Event.beforeInstallPrompt 0, Event.appInstalled,
   Event.tick 1000, Event.timerFire 0]

/-- Trace: signal then appinstalled while the show delay is pending. -/
def c2TracePending : List Event :=
  [Event.mount false, Event.beforeInstallPrompt 7, Event.appInstalled]

/-- The same trace continued: the pending show-delay timer fires. -/
def c2TraceFired : List Event :=
  c2TracePending ++ [Event.tick 1000, Event.timerFire 0]

/-- Trace: signal, banner shown, user dismisses, a second signal arrives
1 second after the dismissal, its show timer fires. -/
def c3Trace : List Event :=
  [Event.mount false, Event.beforeInstallPrompt 0, Event.tick 1000, Event.timerFire 0,
   Event.dismissClick, Event.beforeInstallPrompt 1, Event.tick 1000, Event.timerFire 1]

/-- Trace: user dismisses at t = 100 ms, the page reloads, 14 days pass,
the component mounts again and a new installability signal arrives. -/
def c4Trace : List Event :=
  [Event.mount false, Event.tick 100, Event.dismissClick, Event.reload,
   Event.tick 1209600000, Event.mount false, Event.beforeInstallPrompt 3,
   Event.tick 1000, Event.timerFire 0]

/-- Trace: signal (schedules the show delay), dismissal (schedules the
7-day clearing), then the component is torn down. -/
def c8TraceDown : List Event :=
  [Event.mount false, Event.beforeInstallPrompt 0, Event.dismissClick, Event.unmount]

/-- The same trace continued past teardown: both timers reach their due
times and fire. -/
def c8TraceAfter : List Event :=
  c8TraceDown ++
    [Event.tick 1000, Event.timerFire 0, Event.tick 604799000, Event.timerFire 0]

/-- A mounted instance holding signal 0, banner visible, snapshot flags
clear: used to instantiate the operation-level theorems. -/
def sampleComp : Component :=
  { id := 0
    showPrompt := true
    deferredPrompt := some 0
    promptDismissed := false
    alreadyInstalled := false }

/-- A state with `sampleComp` mounted. -/
def sampleSys : Sys := { init with comp := some sampleComp }

/-- A mounted instance holding no signal. -/
def sampleCompNoSig : Component := { sampleComp with deferredPrompt := none }

/-- A state with `sampleCompNoSig` mounted. -/
def sampleSysNoSig : Sys := { init with comp := some sampleCompNoSig }

/-- Claim C1: for every reachable state, if the persisted `installed`
flag is true the banner is never visible.  Refuted: after an
installability signal schedules the show delay, the appinstalled event
sets the persisted flag but does not cancel the pending setTimeout; when
it fires, setShowPrompt(true) makes the banner visible although the
persisted flag is true. -/
theorem installed_flag_true_but_banner_visible :
    (run init c1Trace).storage.appInstalled = true ∧ visible (run init c1Trace) = true := by
  decide

/-- Claim C2: receiving appinstalled while a scheduled show is pending is
claimed to cancel the pending show.  Refuted: after appinstalled the show
timer is still pending and the banner hidden, and the later firing of
that timer makes the banner visible with the installed flag set. -/
theorem pending_show_not_cancelled_by_appinstalled :
    (run init c2TracePending).timers.length = 1
    ∧ visible (run init c2TracePending) = false
    ∧ (run init c2TracePending).storage.appInstalled = true
    ∧ visible (run init c2TraceFired) = true := by
  decide

/-- Claim C3: with `dismissed` true and less than 7 days elapsed, the
banner is claimed never to be shown even after a new signal.  Refuted:
the eligibility check uses the mount-time snapshot, so a signal arriving
1 second after an in-session dismissal schedules the banner, which
becomes visible while the dismissed flag is set and the cooldown far from
elapsed (dismissal at t = 1000 ms, visible at t = 2000 ms). -/
theorem dismissed_within_cooldown_banner_shown :
    (run init c3Trace).storage.installPromptDismissed = true
    ∧ visible (run init c3Trace) = true
    ∧ (run init c3Trace).now = 2000 := by
  decide

/-- Claim C4: the dismissed flag is claimed to be cleared 7 days after
dismissal, surviving restarts.  Refuted: the clearing is an in-memory
setTimeout and no expiry timestamp is stored, so after a page reload the
flag is never cleared; 14 days after the dismissal a new signal schedules
nothing and the banner stays hidden. -/
theorem cooldown_clear_lost_on_reload :
    (run init c4Trace).storage.installPromptDismissed = true
    ∧ visible (run init c4Trace) = false
    ∧ (run init c4Trace).timers = []
    ∧ DISMISS_COOLDOWN_MS + 100 < (run init c4Trace).now := by
  decide

/-- Claim C8: teardown is claimed to cancel the show-delay timer and the
7-day clearing timer.  Refuted: the effect cleanup removes only the two
event listeners, so after unmount both timers are still pending, and the
clearing timer later removes the durable dismissed flag on behalf of the
stale instance. -/
theorem teardown_leaves_timers_running :
    (run init c8TraceDown).comp = none
    ∧ (run init c8TraceDown).timers.length = 2
    ∧ (run init c8TraceDown).storage.installPromptDismissed = true
    ∧ (run init c8TraceAfter).storage.installPromptDismissed = false := by
  decide

/-- Claim C5: a newer signal replaces any previously stored unconsumed
one (setDeferredPrompt(e) runs before any check, line 27), and consuming
the held signal through the prompt action clears it regardless of the
outcome (setDeferredPrompt(null), line 83, runs on both branches). -/
theorem signal_replaced_and_cleared
    (s : Sys) (c : Component) (sig sigHeld : Nat) (b : Bool)
    (hc : s.comp = some c) (hheld : c.deferredPrompt = some sigHeld) :
    ((step s (Event.beforeInstallPrompt sig)).comp.map Component.deferredPrompt
        = some (some sig))
    ∧ ((step s (Event.installClick b)).comp.map Component.deferredPrompt
        = some none) := by
  constructor
  · simp [step, hc, handleBeforeInstallPrompt]
  · simp [step, hc, handleInstallClick, hheld]

/-- Witness for C5 at a concrete state. -/
theorem signal_replaced_and_cleared_witness :
    ((step sampleSys (Event.beforeInstallPrompt 5)).comp.map Component.deferredPrompt
        = some (some 5))
    ∧ ((step sampleSys (Event.installClick true)).comp.map Component.deferredPrompt
        = some none) :=
  signal_replaced_and_cleared sampleSys sampleComp 5 0 true rfl rfl

/-- Claim C6: invoking the install click with a held signal: on outcome
accepted the persisted installed flag is set and the banner hidden; on
outcome dismissed the banner is hidden and the persisted installed flag
is unchanged (so it stays false when it was false). -/
theorem install_click_outcomes
    (s : Sys) (c : Component) (sigHeld : Nat)
    (hc : s.comp = some c) (hheld : c.deferredPrompt = some sigHeld) :
    ((step s (Event.installClick true)).storage.appInstalled = true)
    ∧ (visible (step s (Event.installClick true)) = false)
    ∧ ((step s (Event.installClick false)).storage.appInstalled
        = s.storage.appInstalled)
    ∧ (visible (step s (Event.installClick false)) = false) := by
  refine ⟨?_, ?_, ?_, ?_⟩ <;>
    simp [step, hc, handleInstallClick, hheld, visible]

/-- Witness for C6 at a concrete state. -/
theorem install_click_outcomes_witness :
    ((step sampleSys (Event.installClick true)).storage.appInstalled = true)
    ∧ (visible (step sampleSys (Event.installClick true)) = false)
    ∧ ((step sampleSys (Event.installClick false)).storage.appInstalled
        = sampleSys.storage.appInstalled)
    ∧ (visible (step sampleSys (Event.installClick false)) = false) :=
  install_click_outcomes sampleSys sampleComp 0 rfl rfl

/-- Claim C7: invoking the install click with no held signal only shows
the fallback alert; storage, component state (visibility, held signal,
snapshot) and timers are all unchanged. -/
theorem fallback_preserves_state
    (s : Sys) (c : Component) (b : Bool)
    (hc : s.comp = some c) (hnone : c.deferredPrompt = none) :
    step s (Event.installClick b)
      = { s with fallbackAlerts := s.fallbackAlerts + 1 } := by
  simp [step, hc, handleInstallClick, hnone]

/-- Witness for C7 at a concrete state. -/
theorem fallback_preserves_state_witness :
    step sampleSysNoSig (Event.installClick true)
      = { sampleSysNoSig with fallbackAlerts := sampleSysNoSig.fallbackAlerts + 1 } :=
  fallback_preserves_state sampleSysNoSig sampleCompNoSig true rfl rfl

/-- Claim C9: when a signal arrives and the mount-time snapshot has
neither flag set, a show timer is scheduled due exactly SHOW_DELAY_MS
after the current time, and that constant is 1000 ms (1 second), not the
3 seconds the in-code comment claims. -/
theorem show_delay_is_one_second
    (s : Sys) (c : Component) (sig : Nat)
    (hc : s.comp = some c) (hd : c.promptDismissed = false)
    (hi : c.alreadyInstalled = false) :
    ((step s (Event.beforeInstallPrompt sig)).timers
        = s.timers ++ [⟨TimerKind.showBanner, s.now + SHOW_DELAY_MS, c.id⟩])
    ∧ SHOW_DELAY_MS = 1000 := by
  refine ⟨?_, rfl⟩
  simp [step, hc, handleBeforeInstallPrompt, hd, hi]

/-- Witness for C9 at a concrete state. -/
theorem show_delay_is_one_second_witness :
    ((step sampleSys (Event.beforeInstallPrompt 2)).timers
        = sampleSys.timers
            ++ [⟨TimerKind.showBanner, sampleSys.now + SHOW_DELAY_MS, sampleComp.id⟩])
    ∧ SHOW_DELAY_MS = 1000 :=
  show_delay_is_one_second sampleSys sampleComp 2 rfl rfl rfl

/-- The scheduling decision for a mounted instance depends only on the
mount-time snapshot flags of that instance. -/
lemma schedulesShow_mounted
    (s : Sys) (c : Component) (sig : Nat) (hc : s.comp = some c) :
    schedulesShow s sig = (!c.promptDismissed && !c.alreadyInstalled) := by
  simp only [schedulesShow, step, hc, handleBeforeInstallPrompt]
  cases c.promptDismissed <;> cases c.alreadyInstalled <;> simp

/-- Claim C10: eligibility uses the flag values snapshotted at mount.
Dismissing, an appinstalled event, an install click with either outcome,
or replacing the persisted store wholesale leaves the scheduling decision
for a subsequent signal in the same mount unchanged; and a mount in
standalone display mode snapshots the pre-write value of the installed
flag even though the display-mode check then writes it true. -/
theorem eligibility_from_mount_snapshot
    (s t : Sys) (c : Component) (sig : Nat) (b : Bool) (st : Storage)
    (hc : s.comp = some c) (ht : t.comp = none) :
    (schedulesShow (step s Event.dismissClick) sig = schedulesShow s sig)
    ∧ (schedulesShow (step s Event.appInstalled) sig = schedulesShow s sig)
    ∧ (schedulesShow (step s (Event.installClick b)) sig = schedulesShow s sig)
    ∧ (schedulesShow { s with storage := st } sig = schedulesShow s sig)
    ∧ ((step t (Event.mount true)).comp.map Component.alreadyInstalled
        = some t.storage.appInstalled)
    ∧ ((step t (Event.mount true)).storage.appInstalled = true) := by
  have hbase := schedulesShow_mounted s c sig hc
  refine ⟨?_, ?_, ?_, ?_, ?_, ?_⟩
  · rw [hbase]
    exact schedulesShow_mounted _ { c with showPrompt := false } sig
      (by simp [step, hc, handleDismiss])
  · rw [hbase]
    exact schedulesShow_mounted _ { c with showPrompt := false } sig
      (by simp [step, hc, handleAppInstalled])
  · rw [hbase]
    cases hheld : c.deferredPrompt with
    | none =>
      exact schedulesShow_mounted _ c sig (by simp [step, hc, handleInstallClick, hheld])
    | some v =>
      exact schedulesShow_mounted _ { c with deferredPrompt := none, showPrompt := false }
        sig (by simp [step, hc, handleInstallClick, hheld])
  · rw [hbase]
    exact schedulesShow_mounted _ c sig (by simp [hc])
  · simp [step, ht, mountComp]
  · simp [step, ht, mountComp]

/-- Witness for C10 at concrete states. -/
theorem eligibility_from_mount_snapshot_witness :
    (schedulesShow (step sampleSys Event.dismissClick) 4 = schedulesShow sampleSys 4)
    ∧ (schedulesShow (step sampleSys Event.appInstalled) 4 = schedulesShow sampleSys 4)
    ∧ (schedulesShow (step sampleSys (Event.installClick false)) 4
        = schedulesShow sampleSys 4)
    ∧ (schedulesShow { sampleSys with
          storage := { appInstalled := true, installPromptDismissed := true } } 4
        = schedulesShow sampleSys 4)
    ∧ ((step init (Event.mount true)).comp.map Component.alreadyInstalled
        = some init.storage.appInstalled)
    ∧ ((step init (Event.mount true)).storage.appInstalled = true) :=
  eligibility_from_mount_snapshot sampleSys init sampleComp 4 false
    { appInstalled := true, installPromptDismissed := true } rfl rfl

end InstallPrompt
